import Mathlib

/-!
Shallow embedding of `netunnel_jwthenticator/plugin.py`: the NETunnel
authentication plugin binding NETunnel's pluggable auth interface to the
external JWThenticator token client.

The plugin's state and operations are translated directly from the source:

* `get_verify_ssl` collapses NETunnel's transport security setting (the
  literal `False`, `None`, or an `ssl.SSLContext`) to the boolean that
  JWThenticator expects.
* `JWThenticatorAuthServer` always reports requests as authenticated and
  raises a `RuntimeError` if its `authenticate` is ever invoked.
* `JWThenticatorAuthClient` holds an optional shared secret key, an optional
  refresh token, a remote sub-path, an identifier (UUID, rendered here by its
  canonical string), and an optional cached external JWThenticator client.

The external JWThenticator `Client` (a third-party dependency, described by
the spec's outbound service contract) is modelled by the `JClient` record and
by an outcome function `ExtCall → ExtResult` supplied to `authenticate`: the
network call either succeeds, yielding a fresh session token (and, for full
authentication, a newly issued refresh token), or fails with the library's
`AuthenticationError`.

Python truthiness (`if self._key:`, `remote_uri or ...`) is embedded
faithfully via `pyTruthy`: an empty string is falsy.
-/

/-- Verification mode of an explicit SSL context (`ssl.VerifyMode`). -/
inductive VerifyMode
  | cert_none
  | cert_optional
  | cert_required
deriving DecidableEq

/-- The transport security value NETunnel hands to the plugin: the literal
`False` (disabled), no context supplied (`None`), or an explicit
`ssl.SSLContext` with a verification mode. -/
inductive SslSetting
  | disabled
  | noContext
  | ctx (mode : VerifyMode)
deriving DecidableEq

/-- A default SSL context (`ssl.create_default_context()`) requires
certificate verification. -/
def defaultContext : SslSetting := SslSetting.ctx VerifyMode.cert_required

/-- `get_verify_ssl` from plugin.py: returns `False` when the setting is the
literal `False` or an `SSLContext` whose `verify_mode` is `CERT_NONE`, and
`True` otherwise. -/
def get_verify_ssl (ssl_context : SslSetting) : Bool :=
  match ssl_context with
  | SslSetting.disabled => false
  | SslSetting.ctx VerifyMode.cert_none => false
  | _ => true

/-- A URL as decomposed by `yurl.URL`: scheme, userinfo, host, port, path,
query and fragment. -/
structure URL where
  scheme : String
  userinfo : String
  host : String
  port : Option Nat
  path : String
  query : String
  fragment : String
deriving DecidableEq

/-- `yurl.URL.replace(path=p)`: a copy of the URL with only the path
component substituted. -/
def URL.replacePath (u : URL) (p : String) : URL := { u with path := p }

/-- Python truthiness of an optional string: `None` and the empty string are
falsy, every other string is truthy. -/
def pyTruthy (x : Option String) : Bool :=
  match x with
  | none => false
  | some s => !(s == "")

/-- Python `x or d` for an optional string `x` and a string default `d`. -/
def pyOrStr (x : Option String) (d : String) : String :=
  if pyTruthy x then x.getD d else d

/-- `remote_uri or os.environ.get('JWTHENTICATOR_URI', '/jwthenticator')`,
the remote sub-path resolution shared by both constructors.  `env` is the
value of the `JWTHENTICATOR_URI` environment variable, `none` when unset. -/
def resolve_remote_uri (remote_uri : Option String) (env : Option String) : String :=
  if pyTruthy remote_uri then remote_uri.getD "" else env.getD "/jwthenticator"

/-- `ValueError` raised by the client constructor when both credentials are
absent. -/
structure ValueError where
  msg : String
deriving DecidableEq

/-- `netunnel.common.exceptions.NETunnelAuthError`, wrapping the endpoint it
failed to authenticate with. -/
structure NETunnelAuthError where
  endpoint : URL
deriving DecidableEq

/-- `netunnel.common.exceptions.NETunnelNotAuthenticatedError`. -/
structure NETunnelNotAuthenticatedError where
  msg : String
deriving DecidableEq

/-- Python `RuntimeError`, raised by the server shim's `authenticate`. -/
structure RuntimeError where
  msg : String
deriving DecidableEq

/-- The canonical string of the nil UUID, the default identifier. -/
def nilUUID : String := "00000000-0000-0000-0000-000000000000"

/-- An incoming `aiohttp.web.Request`, abstracted to its header mapping; the
server shim never inspects it. -/
structure Request where
  headers : List (String × String)
deriving DecidableEq

/-- State of `JWThenticatorAuthServer`: just the resolved remote sub-path. -/
structure ServerState where
  remote_uri : String
deriving DecidableEq

/-- `JWThenticatorAuthServer.__init__`: resolves the remote sub-path from the
optional constructor argument and the environment. -/
def JWThenticatorAuthServer_init (remote_uri : Option String) (env : Option String) : ServerState :=
  { remote_uri := resolve_remote_uri remote_uri env }

/-- `JWThenticatorAuthServer.is_authenticated`: always `True`; verification is
delegated to an external reverse proxy. -/
def server_is_authenticated (_sv : ServerState) (_request : Request) : Bool := true

/-- `JWThenticatorAuthServer.authenticate`: always raises `RuntimeError`. -/
def server_authenticate (_sv : ServerState) (_request : Request) : Except RuntimeError Unit :=
  Except.error { msg := "Authentication should be handled by an external JWThenticator server" }

/-- The external `jwthenticator.client.Client`, modelled from the spec's
outbound service contract: it is bound to an endpoint, an identifier, the
optional key and refresh token, and the boolean verify flag, and it exposes
the current session token `jwt` with its expiry flag `is_jwt_expired` and the
current `refresh_token`.  A freshly constructed client holds no session token
yet (the spec's session state is absent until an authenticate succeeds):
`jwt` is the empty string and `is_jwt_expired` is `true`. -/
structure JClient where
  url : URL
  identifier : String
  key : Option String
  refresh_token : Option String
  verify_ssl : Bool
  jwt : String
  is_jwt_expired : Bool
deriving DecidableEq

/-- State of `JWThenticatorAuthClient`: the credential record plus the cached
external client (`None` until the first `authenticate` call). -/
structure ClientState where
  key : Option String
  refresh_token : Option String
  remote_uri : String
  uuid : String
  jclient : Option JClient
deriving DecidableEq

/-- `JWThenticatorAuthClient.__init__`: resolves the remote sub-path, raises
`ValueError` when both `key` and `refresh_token` are `None`, and defaults the
identifier to the nil UUID (Python `uuid or "00000000-..."`). -/
def JWThenticatorAuthClient_init (key refresh_token remote_uri uuid : Option String)
    (env : Option String) : Except ValueError ClientState :=
  let ru := resolve_remote_uri remote_uri env
  if key = none ∧ refresh_token = none then
    Except.error { msg := "Either `key` or `refresh_token` must be given" }
  else
    Except.ok { key := key, refresh_token := refresh_token, remote_uri := ru,
                uuid := pyOrStr uuid nilUUID, jclient := none }

/-- Which operation `authenticate` invokes on the external client. -/
inductive ExtCall
  | fullAuth
  | refreshCall
deriving DecidableEq

/-- Outcome of the external call: success carries the freshly issued session
token (not yet expired) and, for full authentication, the newly issued
refresh token; failure is the library's `AuthenticationError`. -/
inductive ExtResult
  | success (jwt : String) (issuedRefreshToken : String)
  | authFailure
deriving DecidableEq

/-- The `Client(...)` constructed at the start of `authenticate`: bound to the
peer URL with its path replaced by the configured sub-path, the identifier,
the stored credentials and the collapsed verify flag; no session token yet. -/
def mkFreshClient (s : ClientState) (serverUrl : URL) (ssl : SslSetting) : JClient :=
  { url := URL.replacePath serverUrl s.remote_uri,
    identifier := s.uuid,
    key := s.key,
    refresh_token := s.refresh_token,
    verify_ssl := get_verify_ssl ssl,
    jwt := "",
    is_jwt_expired := true }

/-- The branch taken by `authenticate`: `if self._key:` (Python truthiness). -/
def authCallOf (s : ClientState) : ExtCall :=
  if pyTruthy s.key then ExtCall.fullAuth else ExtCall.refreshCall

/-- Result of one `authenticate` call: which external operation was invoked,
the client shim state afterwards (Python mutates `self` even when the
exception propagates), and success or the raised `NETunnelAuthError`. -/
structure AuthStep where
  called : ExtCall
  state : ClientState
  result : Except NETunnelAuthError Unit

/-- `JWThenticatorAuthClient.authenticate`: replaces the cached external
client with a fresh one bound to the derived endpoint, then performs full
authentication when a (truthy) key is present — capturing the newly issued
refresh token — or a refresh otherwise; an `AuthenticationError` from the
external call is re-raised as `NETunnelAuthError` wrapping the endpoint. -/
def authenticate (s : ClientState) (serverUrl : URL) (ssl : SslSetting)
    (ext : ExtCall → ExtResult) : AuthStep :=
  let c := mkFreshClient s serverUrl ssl
  match authCallOf s, ext (authCallOf s) with
  | ExtCall.fullAuth, ExtResult.success jwt issuedRT =>
      { called := ExtCall.fullAuth,
        state := { s with
          jclient := some { c with
            jwt := jwt,
            is_jwt_expired := false,
            refresh_token := some issuedRT },
          refresh_token := some issuedRT },
        result := Except.ok () }
  | ExtCall.refreshCall, ExtResult.success jwt _ =>
      { called := ExtCall.refreshCall,
        state := { s with jclient := some { c with jwt := jwt, is_jwt_expired := false } },
        result := Except.ok () }
  | call, ExtResult.authFailure =>
      { called := call,
        state := { s with jclient := some c },
        result := Except.error { endpoint := c.url } }

/-- `JWThenticatorAuthClient.is_authenticated`: the cached external client
exists and its session token has not expired. -/
def is_authenticated (s : ClientState) : Bool :=
  match s.jclient with
  | none => false
  | some c => !c.is_jwt_expired

/-- The session token of the cached external client (empty when absent). -/
def currentJwt (s : ClientState) : String :=
  match s.jclient with
  | none => ""
  | some c => c.jwt

/-- `JWThenticatorAuthClient.get_authorized_headers`: raises
`NETunnelNotAuthenticatedError` unless authenticated, else returns the
Authorization header with the bearer token. -/
def get_authorized_headers (s : ClientState) :
    Except NETunnelNotAuthenticatedError (List (String × String)) :=
  if is_authenticated s then
    Except.ok [("Authorization", "Bearer " ++ currentJwt s)]
  else
    Except.error { msg := "Cannot generate authorized headers without authenticating first" }

/-- The mapping returned by `dump_object`. -/
structure DumpObject where
  refresh_token : String
  uuid : String
deriving DecidableEq

/-- `JWThenticatorAuthClient.dump_object`: raises
`NETunnelNotAuthenticatedError` when no refresh token is held, else returns
the refresh token and the string form of the identifier. -/
def dump_object (s : ClientState) : Except NETunnelNotAuthenticatedError DumpObject :=
  match s.refresh_token with
  | none => Except.error { msg := "Cannot dump object without authenticating first" }
  | some rt => Except.ok { refresh_token := rt, uuid := s.uuid }

/-- A concrete peer base URL, as in the spec's endpoint-derivation example. -/
def sampleUrl : URL :=
  { scheme := "https", userinfo := "", host := "host", port := some 9999,
    path := "/anything", query := "", fragment := "" }

/-- A concrete cached external client holding a valid session token. -/
def sampleClient : JClient :=
  { url := URL.replacePath sampleUrl "/jwthenticator", identifier := nilUUID,
    key := some "k", refresh_token := some "r0", verify_ssl := true,
    jwt := "tok0", is_jwt_expired := false }

/-- A concrete client shim state that has already authenticated once. -/
def sampleState : ClientState :=
  { key := some "k", refresh_token := some "r0", remote_uri := "/jwthenticator",
    uuid := nilUUID, jclient := some sampleClient }

/-- External behaviour that rejects every call. -/
def failExt : ExtCall → ExtResult := fun _ => ExtResult.authFailure

/-- External behaviour that accepts every call, issuing token tok1 and
refresh token rt1. -/
def okExt : ExtCall → ExtResult := fun _ => ExtResult.success "tok1" "rt1"

/-- A concrete freshly constructed shim state: a key only, no refresh token,
no cached external client. -/
def freshState : ClientState :=
  { key := some "k", refresh_token := none, remote_uri := "/jwthenticator",
    uuid := nilUUID, jclient := none }

/-- A concrete shim state constructed with the empty-string key and a
refresh token. -/
def emptyKeyState : ClientState :=
  { key := some "", refresh_token := some "r0", remote_uri := "/jwthenticator",
    uuid := nilUUID, jclient := none }

/-- Claim C2: the transport-trust-to-boolean collapse `get_verify_ssl`
returns false exactly when the setting is disabled (the literal False) or an
explicit SSL context with verification mode CERT_NONE; every other input —
no context supplied, a default context, an explicit context requiring
verification — yields true. -/
theorem C2_get_verify_ssl_characterization :
    (∀ x : SslSetting, get_verify_ssl x = false ↔
      (x = SslSetting.disabled ∨ x = SslSetting.ctx VerifyMode.cert_none)) ∧
    get_verify_ssl SslSetting.noContext = true ∧
    get_verify_ssl defaultContext = true ∧
    get_verify_ssl (SslSetting.ctx VerifyMode.cert_required) = true := by
  refine ⟨?_, rfl, rfl, rfl⟩
  intro x
  cases x with
  | disabled => simp [get_verify_ssl]
  | noContext => simp [get_verify_ssl]
  | ctx m => cases m <;> simp [get_verify_ssl]

/-- Claim C3: for every combination of the remaining constructor arguments,
constructing the client shim with both the key and the refresh token absent
fails with the configuration ValueError, and with at least one of the two
present the construction succeeds (does not raise that error). -/
theorem C3_construction_validation :
    ∀ key refresh_token remote_uri uuid env : Option String,
      (JWThenticatorAuthClient_init key refresh_token remote_uri uuid env
          = Except.error { msg := "Either `key` or `refresh_token` must be given" }
        ↔ (key = none ∧ refresh_token = none)) ∧
      ((key ≠ none ∨ refresh_token ≠ none) ↔
        ∃ st, JWThenticatorAuthClient_init key refresh_token remote_uri uuid env
          = Except.ok st) := by
  intro key refresh_token remote_uri uuid env
  unfold JWThenticatorAuthClient_init
  by_cases h : key = none ∧ refresh_token = none
  · rw [if_pos h]
    constructor
    · simp [h]
    · constructor
      · simp [h.1, h.2]
      · intro hex
        rcases hex with ⟨st, hst⟩
        exact absurd hst (by simp)
  · rw [if_neg h]
    constructor
    · simp
      intro hk hr
      exact h ⟨hk, hr⟩
    · constructor
      · intro _
        exact ⟨_, rfl⟩
      · intro _
        by_cases hk : key = none
        · right
          intro hr0
          exact h ⟨hk, hr0⟩
        · left
          exact hk

/-- Claim C4: the endpoint the client shim's authenticate binds the external
client to equals the peer base URL with only its path component replaced by
the configured sub-path: scheme, userinfo, host, port, query and fragment
are unchanged. -/
theorem C4_endpoint_derivation :
    ∀ (s : ClientState) (serverUrl : URL) (ssl : SslSetting) (ext : ExtCall → ExtResult),
      ∃ c : JClient,
        (authenticate s serverUrl ssl ext).state.jclient = some c ∧
        c.url.scheme = serverUrl.scheme ∧
        c.url.userinfo = serverUrl.userinfo ∧
        c.url.host = serverUrl.host ∧
        c.url.port = serverUrl.port ∧
        c.url.query = serverUrl.query ∧
        c.url.fragment = serverUrl.fragment ∧
        c.url.path = s.remote_uri := by
  intro s serverUrl ssl ext
  unfold authenticate
  split <;> refine ⟨_, rfl, ?_, ?_, ?_, ?_, ?_, ?_, ?_⟩ <;> rfl

/-- Claim C8: the server-side shim reports every request as authenticated,
and its authenticate raises the internal-misuse RuntimeError for every
request, never succeeding. -/
theorem C8_server_shim :
    ∀ (sv : ServerState) (r : Request),
      server_is_authenticated sv r = true ∧
      server_authenticate sv r =
        Except.error { msg := "Authentication should be handled by an external JWThenticator server" } := by
  intro sv r
  exact ⟨rfl, rfl⟩

/-- Claim C5: get_authorized_headers fails with NETunnelNotAuthenticatedError
exactly when is_authenticated is false at call time — in particular on every
freshly constructed shim, before any successful authenticate — and when
is_authenticated is true it returns exactly the Authorization header carrying
the bearer form of the current session token. -/
theorem C5_authorized_headers :
    ∀ s : ClientState,
      ((is_authenticated s = false ∧
          get_authorized_headers s = Except.error
            { msg := "Cannot generate authorized headers without authenticating first" }) ∨
        (is_authenticated s = true ∧
          get_authorized_headers s =
            Except.ok [("Authorization", "Bearer " ++ currentJwt s)])) ∧
      (∀ key refresh_token remote_uri uuid env st,
        JWThenticatorAuthClient_init key refresh_token remote_uri uuid env = Except.ok st →
        get_authorized_headers st = Except.error
          { msg := "Cannot generate authorized headers without authenticating first" }) := by
  intro s
  constructor
  · by_cases h : is_authenticated s
    · right
      exact ⟨h, by rw [get_authorized_headers, if_pos h]⟩
    · left
      refine ⟨by simp [h], ?_⟩
      rw [get_authorized_headers, if_neg h]
  · intro key refresh_token remote_uri uuid env st hst
    have hjc : st.jclient = none := by
      unfold JWThenticatorAuthClient_init at hst
      by_cases h : key = none ∧ refresh_token = none
      · rw [if_pos h] at hst
        exact absurd hst (by simp)
      · rw [if_neg h] at hst
        cases hst
        rfl
    have hna : is_authenticated st = false := by
      rw [is_authenticated, hjc]
    rw [get_authorized_headers, if_neg (by simp [hna])]

/-- Claim C6: dump_object fails with NETunnelNotAuthenticatedError exactly
when no refresh token is held; otherwise it returns exactly the held refresh
token together with the string form of the configured identifier. -/
theorem C6_dump_object :
    ∀ s : ClientState,
      (s.refresh_token = none ∧
        dump_object s = Except.error
          { msg := "Cannot dump object without authenticating first" }) ∨
      (∃ rt, s.refresh_token = some rt ∧
        dump_object s = Except.ok { refresh_token := rt, uuid := s.uuid }) := by
  intro s
  cases h : s.refresh_token with
  | none =>
      left
      exact ⟨rfl, by rw [dump_object, h]⟩
  | some rt =>
      right
      exact ⟨rt, rfl, by rw [dump_object, h]⟩

/-- Claim C10: the durable state components are preserved: authenticate never
changes the identifier; a failed authenticate leaves the stored refresh token
— and hence the dump_object output — unchanged; and a shim constructed
without an identifier carries the nil UUID. -/
theorem C10_durable_state_frame :
    ∀ (s : ClientState) (serverUrl : URL) (ssl : SslSetting) (ext : ExtCall → ExtResult),
      (authenticate s serverUrl ssl ext).state.uuid = s.uuid ∧
      (∀ e, (authenticate s serverUrl ssl ext).result = Except.error e →
        (authenticate s serverUrl ssl ext).state.refresh_token = s.refresh_token ∧
        dump_object (authenticate s serverUrl ssl ext).state = dump_object s) ∧
      (∀ key refresh_token remote_uri env st,
        JWThenticatorAuthClient_init key refresh_token remote_uri none env = Except.ok st →
        st.uuid = nilUUID) := by
  intro s serverUrl ssl ext
  refine ⟨?_, ?_, ?_⟩
  · unfold authenticate
    split <;> rfl
  · intro e he
    have hrt : (authenticate s serverUrl ssl ext).state.refresh_token = s.refresh_token := by
      unfold authenticate at he ⊢
      split at he
      · exact absurd he (by simp)
      · exact absurd he (by simp)
      · rfl
    refine ⟨hrt, ?_⟩
    have huu : (authenticate s serverUrl ssl ext).state.uuid = s.uuid := by
      unfold authenticate
      split <;> rfl
    rw [dump_object, dump_object, hrt, huu]
  · intro key refresh_token remote_uri env st hst
    unfold JWThenticatorAuthClient_init at hst
    by_cases h : key = none ∧ refresh_token = none
    · rw [if_pos h] at hst
      exact absurd hst (by simp)
    · rw [if_neg h] at hst
      cases hst
      rfl

/-- Claim C5 witness: a freshly constructed shim is accepted by the
constructor and its get_authorized_headers fails with
NETunnelNotAuthenticatedError. -/
theorem C5_authorized_headers_witness :
    JWThenticatorAuthClient_init (some "k") none none none none = Except.ok freshState ∧
    get_authorized_headers freshState =
      Except.error { msg := "Cannot generate authorized headers without authenticating first" } := by
  refine ⟨rfl, ?_⟩
  exact (C5_authorized_headers freshState).2 (some "k") none none none none freshState rfl

/-- Claim C10 witness: at a concrete previously-authenticated state, a failed
authenticate leaves the refresh token and the dump_object output unchanged,
and a concrete construction without an identifier carries the nil UUID. -/
theorem C10_durable_state_frame_witness :
    (authenticate sampleState sampleUrl SslSetting.noContext failExt).result =
      Except.error { endpoint := URL.replacePath sampleUrl "/jwthenticator" } ∧
    (authenticate sampleState sampleUrl SslSetting.noContext failExt).state.refresh_token =
      sampleState.refresh_token ∧
    dump_object (authenticate sampleState sampleUrl SslSetting.noContext failExt).state =
      dump_object sampleState ∧
    (∃ st, JWThenticatorAuthClient_init (some "k") none none none none = Except.ok st ∧
      st.uuid = nilUUID) := by
  refine ⟨rfl, ?_, ?_, ?_⟩
  · exact ((C10_durable_state_frame sampleState sampleUrl SslSetting.noContext failExt).2.1
      { endpoint := URL.replacePath sampleUrl "/jwthenticator" } rfl).1
  · exact ((C10_durable_state_frame sampleState sampleUrl SslSetting.noContext failExt).2.1
      { endpoint := URL.replacePath sampleUrl "/jwthenticator" } rfl).2
  · exact ⟨_, rfl, (C10_durable_state_frame sampleState sampleUrl SslSetting.noContext failExt).2.2
      (some "k") none none none _ rfl⟩

/-- Claim C1 counterexample: at a concrete previously-authenticated shim
state, a failed authenticate raises the AuthError, but the cached external
token client is not what it was before the call — it has been replaced by the
freshly constructed unauthenticated client — and is_authenticated flips from
true to false. -/
theorem C1_counterexample :
    (authenticate sampleState sampleUrl SslSetting.noContext failExt).result =
      Except.error { endpoint := URL.replacePath sampleUrl "/jwthenticator" } ∧
    (authenticate sampleState sampleUrl SslSetting.noContext failExt).state.jclient ≠
      sampleState.jclient ∧
    is_authenticated sampleState = true ∧
    is_authenticated (authenticate sampleState sampleUrl SslSetting.noContext failExt).state
      = false := by
  refine ⟨rfl, ?_, rfl, rfl⟩
  decide

/-- Claim C1 (amended): when the external call raises an authentication
error, authenticate fails with the NETunnelAuthError wrapping the derived
endpoint and leaves the stored key, refresh token, remote sub-path and
identifier unchanged; the cached external token client, however, is replaced
by the freshly constructed unauthenticated client. -/
theorem C1_failed_authenticate_state :
    ∀ (s : ClientState) (serverUrl : URL) (ssl : SslSetting) (ext : ExtCall → ExtResult),
      ext (authCallOf s) = ExtResult.authFailure →
      (authenticate s serverUrl ssl ext).result =
        Except.error { endpoint := URL.replacePath serverUrl s.remote_uri } ∧
      (authenticate s serverUrl ssl ext).state.key = s.key ∧
      (authenticate s serverUrl ssl ext).state.refresh_token = s.refresh_token ∧
      (authenticate s serverUrl ssl ext).state.remote_uri = s.remote_uri ∧
      (authenticate s serverUrl ssl ext).state.uuid = s.uuid ∧
      (authenticate s serverUrl ssl ext).state.jclient =
        some (mkFreshClient s serverUrl ssl) := by
  intro s serverUrl ssl ext h
  unfold authenticate
  split
  · simp_all
  · simp_all
  · exact ⟨rfl, rfl, rfl, rfl, rfl, rfl⟩

/-- Claim C1 witness: the amended statement applied at a concrete
previously-authenticated state with a rejecting external service. -/
theorem C1_failed_authenticate_state_witness :
    failExt (authCallOf sampleState) = ExtResult.authFailure ∧
    (authenticate sampleState sampleUrl SslSetting.noContext failExt).state.refresh_token =
      sampleState.refresh_token ∧
    (authenticate sampleState sampleUrl SslSetting.noContext failExt).state.uuid =
      sampleState.uuid := by
  refine ⟨rfl, ?_, ?_⟩
  · exact (C1_failed_authenticate_state sampleState sampleUrl SslSetting.noContext failExt
      rfl).2.2.1
  · exact (C1_failed_authenticate_state sampleState sampleUrl SslSetting.noContext failExt
      rfl).2.2.2.2.1

/-- Claim C7 counterexample: a shim constructed with the empty-string shared
secret key (and a refresh token) is accepted by the constructor, yet its
authenticate performs the refresh operation, not the full authentication
operation. -/
theorem C7_counterexample :
    JWThenticatorAuthClient_init (some "") (some "r0") none none none =
      Except.ok emptyKeyState ∧
    (authenticate emptyKeyState sampleUrl SslSetting.noContext okExt).called =
      ExtCall.refreshCall := by
  exact ⟨rfl, rfl⟩

/-- Claim C7 (amended): with a non-empty shared secret key present,
authenticate performs the full authentication operation and, when the
external client succeeds, stores the newly issued refresh token overwriting
any prior value, after which is_authenticated is true and dump_object returns
the newly issued refresh token together with the configured identifier; with
the key absent or empty (Python truthiness), authenticate performs the
refresh operation instead. -/
theorem C7_authenticate_success :
    ∀ (s : ClientState) (serverUrl : URL) (ssl : SslSetting) (jwt irt : String),
      (∀ k, s.key = some k → k ≠ "" →
        (authenticate s serverUrl ssl (fun _ => ExtResult.success jwt irt)).called =
          ExtCall.fullAuth ∧
        (authenticate s serverUrl ssl (fun _ => ExtResult.success jwt irt)).state.refresh_token =
          some irt ∧
        is_authenticated
          (authenticate s serverUrl ssl (fun _ => ExtResult.success jwt irt)).state = true ∧
        dump_object (authenticate s serverUrl ssl (fun _ => ExtResult.success jwt irt)).state =
          Except.ok { refresh_token := irt, uuid := s.uuid }) ∧
      ((s.key = none ∨ s.key = some "") →
        (authenticate s serverUrl ssl (fun _ => ExtResult.success jwt irt)).called =
          ExtCall.refreshCall) := by
  intro s serverUrl ssl jwt irt
  constructor
  · intro k hk hne
    have hcall : authCallOf s = ExtCall.fullAuth := by
      rw [authCallOf, hk]
      simp [pyTruthy, hne]
    refine ⟨?_, ?_, ?_, ?_⟩ <;>
      simp [authenticate, hcall, is_authenticated, dump_object]
  · intro hk
    have hcall : authCallOf s = ExtCall.refreshCall := by
      rcases hk with hk | hk <;> rw [authCallOf, hk] <;> simp [pyTruthy]
    simp [authenticate, hcall]

/-- Claim C7 witness: the amended statement applied at a concrete state
holding the non-empty key k, with an external service issuing token tok1 and
refresh token rt1. -/
theorem C7_authenticate_success_witness :
    sampleState.key = some "k" ∧
    (authenticate sampleState sampleUrl SslSetting.noContext okExt).called =
      ExtCall.fullAuth ∧
    dump_object (authenticate sampleState sampleUrl SslSetting.noContext okExt).state =
      Except.ok { refresh_token := "rt1", uuid := nilUUID } := by
  refine ⟨rfl, ?_, ?_⟩
  · exact ((C7_authenticate_success sampleState sampleUrl SslSetting.noContext
      "tok1" "rt1").1 "k" rfl (by decide)).1
  · exact ((C7_authenticate_success sampleState sampleUrl SslSetting.noContext
      "tok1" "rt1").1 "k" rfl (by decide)).2.2.2

/-- Claim C9 counterexample: with the constructor argument supplied as the
empty string and the environment variable set, the claim's priority order
demands the argument be used, yet the code resolves to the environment
value. -/
theorem C9_counterexample :
    (JWThenticatorAuthServer_init (some "") (some "/envpath")).remote_uri = "/envpath" ∧
    (JWThenticatorAuthServer_init (some "") (some "/envpath")).remote_uri ≠ "" := by
  exact ⟨rfl, by decide⟩

/-- Claim C9 (amended): in both constructors the remote sub-path resolves in
priority order to the explicit constructor argument when supplied and
non-empty (Python truthiness), otherwise to the value of the
JWTHENTICATOR_URI environment variable when set, otherwise to the default
sub-path /jwthenticator. -/
theorem C9_remote_uri_resolution :
    ∀ (arg env : Option String),
      (JWThenticatorAuthServer_init arg env).remote_uri = resolve_remote_uri arg env ∧
      (∀ key refresh_token uuid st,
        JWThenticatorAuthClient_init key refresh_token arg uuid env = Except.ok st →
        st.remote_uri = resolve_remote_uri arg env) ∧
      (∀ a, arg = some a → a ≠ "" → resolve_remote_uri arg env = a) ∧
      ((arg = none ∨ arg = some "") → ∀ e, env = some e → resolve_remote_uri arg env = e) ∧
      ((arg = none ∨ arg = some "") → env = none →
        resolve_remote_uri arg env = "/jwthenticator") := by
  intro arg env
  refine ⟨rfl, ?_, ?_, ?_, ?_⟩
  · intro key refresh_token uuid st hst
    unfold JWThenticatorAuthClient_init at hst
    by_cases h : key = none ∧ refresh_token = none
    · rw [if_pos h] at hst
      exact absurd hst (by simp)
    · rw [if_neg h] at hst
      cases hst
      rfl
  · intro a ha hne
    rw [resolve_remote_uri, ha]
    simp [pyTruthy, hne]
  · intro h e he
    rcases h with h | h <;> rw [resolve_remote_uri, h, he] <;> simp [pyTruthy]
  · intro h he
    rcases h with h | h <;> rw [resolve_remote_uri, h, he] <;> simp [pyTruthy]

/-- Claim C9 witness: the amended resolution applied at concrete inputs — a
non-empty explicit argument wins, otherwise a set environment value wins,
otherwise the default; and a concretely constructed client shim carries the
resolved sub-path. -/
theorem C9_remote_uri_resolution_witness :
    resolve_remote_uri (some "/custom") (some "/envpath") = "/custom" ∧
    resolve_remote_uri none (some "/envpath") = "/envpath" ∧
    resolve_remote_uri none none = "/jwthenticator" ∧
    (∃ st, JWThenticatorAuthClient_init (some "k") none none none none = Except.ok st ∧
      st.remote_uri = resolve_remote_uri none none) := by
  refine ⟨?_, ?_, ?_, ?_⟩
  · exact (C9_remote_uri_resolution (some "/custom") (some "/envpath")).2.2.1
      "/custom" rfl (by decide)
  · exact (C9_remote_uri_resolution none (some "/envpath")).2.2.2.1
      (Or.inl rfl) "/envpath" rfl
  · exact (C9_remote_uri_resolution none none).2.2.2.2 (Or.inl rfl) rfl
  · exact ⟨freshState, rfl, (C9_remote_uri_resolution none none).2.1
      (some "k") none none freshState rfl⟩
